import Mathlib

/-!
Shallow embedding of `src/tools/tcp_server_dump.py`, a small TCP test server
that accepts a connection, reads one bounded chunk from the client, dumps it
to a file and echoes it on the console.

Bytes are modelled as `Nat`, a payload as `List Nat`.  The datafile is
modelled as `Option (List Nat)` (`none` = absent).  The observable side
effects of the script (console prints, sleeps, recv attempts, file opens and
writes) are recorded in an explicit effect trace so that claims about what
the program does and does not do can be stated directly.

The behaviour of the operating system towards the program (what each
`conn.recv` call yields, whether `serv.accept` times out) is an input to the
embedding: a `RecvOutcome` trace per connection and an `AcceptOutcome` per
loop iteration.
-/

namespace TcpServerDump

/-- Constants from the top of the script. -/
def DEFAULT_TIMEOUT : Int := 30

def DEFAULT_PORT : Int := 40000

def DEFAULT_DELAY : Rat := 0

def BUFSIZE : Nat := 1024

/-- Linux value of `errno.EAGAIN` ([Errno 11]; on macOS both are 35 — on
either platform the two constants coincide). -/
def errno_EAGAIN : Nat := 11

/-- Linux value of `errno.EWOULDBLOCK`, numerically equal to `EAGAIN`. -/
def errno_EWOULDBLOCK : Nat := 11

/-- One option registered on the `argparse` parser: its flag strings and its
destination attribute. -/
structure ArgSpec where
  flags : List String
  dest : String
  deriving DecidableEq, Repr

/-- The options `parseArgs` registers, in source order.  `argparse` adds
`-h and --help` itself; the five `add_argument` calls follow.  No other option
is defined. -/
def parseArgs_options : List ArgSpec :=
  [⟨["-h", "--help"], "help"⟩,
   ⟨["-f", "--datafile"], "datafile"⟩,
   ⟨["-s", "--single"], "single"⟩,
   ⟨["-p", "--port"], "port"⟩,
   ⟨["-t", "--timeout"], "timeout"⟩,
   ⟨["-d", "--delay"], "delay"⟩]

/-- All flag strings the command line accepts. -/
def parserFlags : List String :=
  (parseArgs_options.map ArgSpec.flags).flatten

/-- The parsed options object (`opts`). -/
structure Opts where
  datafile : String
  single : Bool
  port : Int
  timeout : Int
  delay : Rat
  deriving DecidableEq, Repr

/-- An observable side effect of the script. -/
inductive Effect where
  /-- `print <s>` of a fixed message. -/
  | printed (s : String)
  /-- `print <pre> + data`: a console line made of a fixed text followed by
  raw payload bytes. -/
  | printedData (pre : String) (data : List Nat)
  /-- `time.sleep d`. -/
  | sleep (d : Rat)
  /-- One call to `conn.recv(BUFSIZE)`. -/
  | recvAttempt
  /-- `open(opts.datafile, "w")`: truncate-write open of the datafile. -/
  | fileOpenW
  /-- `FILE.write(data)`. -/
  | fileWrite (data : List Nat)
  deriving DecidableEq, Repr

/-- What one `conn.recv(BUFSIZE)` call does, as dictated by the OS. -/
inductive RecvOutcome where
  /-- The call succeeds and returns `take BUFSIZE` of the buffered bytes
  (the empty string when the client has closed with nothing buffered). -/
  | ok
  /-- The call raises `socket.error` with the given `errno`. -/
  | fail (e : Nat)
  deriving DecidableEq, Repr

/-- How a `read_tcp` call ends. -/
inductive ReadResult where
  /-- `return data` was executed; `rest` are the recv outcomes the OS had in
  store that the function never consumed. -/
  | returned (data : List Nat) (rest : List RecvOutcome)
  /-- `raise e` was executed: the `socket.error` propagates. -/
  | raised (e : Nat)
  /-- The trace was exhausted with the loop still running (every outcome was
  an `EAGAIN`). -/
  | blocked
  deriving DecidableEq, Repr

/-- The `while True` loop of `read_tcp`: one `conn.recv(BUFSIZE)` per
iteration; on success return its value at once; on `socket.error` retry only
when `e.errno == errno.EAGAIN`, otherwise `raise e`. -/
def read_tcp_loop : List RecvOutcome → List Nat → List Effect × ReadResult
  | [], _ => ([], .blocked)
  | .ok :: rest, buffered =>
    ([.recvAttempt], .returned (buffered.take BUFSIZE) rest)
  | .fail e :: rest, buffered =>
    if e = errno_EAGAIN then
      let p := read_tcp_loop rest buffered
      (.recvAttempt :: p.1, p.2)
    else
      ([.recvAttempt], .raised e)

/-- `read_tcp(conn, read_delay)`: prints a banner, then runs the recv loop.
`read_delay` is a parameter of the source function and, exactly as in the
source, is never used in the body. -/
def read_tcp (read_delay : Rat) (outcomes : List RecvOutcome)
    (buffered : List Nat) : List Effect × ReadResult :=
  let p := read_tcp_loop outcomes buffered
  (.printed "read data from client" :: p.1, p.2)

/-- What `serv.accept()` does on one iteration. -/
inductive AcceptOutcome where
  /-- A client connects; `outcomes` is what its successive `recv` calls will
  do and `buffered` the bytes the client sent. -/
  | conn (outcomes : List RecvOutcome) (buffered : List Nat)
  /-- No client within the socket timeout: `accept` raises `timeout`. -/
  | timeout
  deriving DecidableEq, Repr

/-- How one `run_server` call ends. -/
inductive ServerResult where
  /-- Normal completion. -/
  | ok
  /-- `serv.accept()` raised its timeout error. -/
  | acceptTimeout
  /-- `read_tcp` re-raised a `socket.error` with this `errno`. -/
  | sockError (e : Nat)
  /-- `read_tcp` never returned within the given outcome trace. -/
  | blocked
  deriving DecidableEq, Repr

/-- The outcome of one `run_server` call: its effect trace, the datafile
content afterwards, and how it ended. -/
structure StepOut where
  effects : List Effect
  file : Option (List Nat)
  result : ServerResult
  deriving DecidableEq, Repr

/-- `run_server(serv, opts)`: accept, read, then dump.  On a successful read
the datafile is opened with mode `"w"` (truncating whatever it held), the
captured bytes are written, `"Write: " + data` is printed, the file is
closed and the connection closed.  An exception from `accept` or `read_tcp`
propagates before `open` is reached, leaving the datafile untouched. -/
def run_server (acc : AcceptOutcome) (opts : Opts)
    (file : Option (List Nat)) : StepOut :=
  match acc with
  | .timeout => ⟨[], file, .acceptTimeout⟩
  | .conn outcomes buffered =>
    let p := read_tcp opts.delay outcomes buffered
    match p.2 with
    | .returned data _ =>
      ⟨.printed "client connected" :: p.1 ++
        [.fileOpenW, .fileWrite data, .printedData "Write: " data,
         .printed "closing connection"],
       some data, .ok⟩
    | .raised e => ⟨.printed "client connected" :: p.1, file, .sockError e⟩
    | .blocked => ⟨.printed "client connected" :: p.1, file, .blocked⟩

/-- How the `while(1)` main loop ends. -/
inductive LoopResult where
  /-- `break` executed: single-shot mode after one completed connection. -/
  | finished
  /-- An exception propagated out of `run_server`, killing the process. -/
  | terminated (r : ServerResult)
  /-- The accept trace was exhausted with the loop still going. -/
  | running
  deriving DecidableEq, Repr

/-- The outcome of the main loop on a finite trace of accept outcomes: the
datafile content, the number of completed connections, and how it ended. -/
structure LoopOut where
  file : Option (List Nat)
  handled : Nat
  result : LoopResult
  deriving DecidableEq, Repr

/-- The `while(1): run_server(serv, opts); if opts.single: break` loop, run
over a finite trace of accept outcomes. -/
def main_loop (opts : Opts) :
    List AcceptOutcome → Option (List Nat) → LoopOut
  | [], file => ⟨file, 0, .running⟩
  | acc :: rest, file =>
    let s := run_server acc opts file
    match s.result with
    | .ok =>
      if opts.single then ⟨s.file, 1, .finished⟩
      else
        let l := main_loop opts rest s.file
        ⟨l.file, l.handled + 1, l.result⟩
    | r => ⟨s.file, 0, .terminated r⟩

/-- A concrete options object for witnesses: `-f out.dat`, defaults
otherwise. -/
def sampleOpts : Opts := ⟨"out.dat", false, 40000, 30, 0⟩

/-- `sampleOpts` with single-shot mode set. -/
def sampleSingleOpts : Opts := ⟨"out.dat", true, 40000, 30, 0⟩

/-! Helper lemmas about the effect trace of the recv loop. -/

/-- Every effect the recv loop itself emits is a recv attempt: the loop body
contains no print, no sleep and no file operation. -/
theorem read_tcp_loop_effects_recvAttempt (o : List RecvOutcome)
    (b : List Nat) : ∀ eff ∈ (read_tcp_loop o b).1, eff = Effect.recvAttempt := by
  induction o with
  | nil => intro eff h; simp [read_tcp_loop] at h
  | cons hd tl ih =>
    intro eff h
    cases hd with
    | ok =>
      simp [read_tcp_loop] at h
      simp [h]
    | fail e =>
      by_cases he : e = errno_EAGAIN
      · simp [read_tcp_loop, he] at h
        rcases h with h | h
        · simp [h]
        · exact ih eff h
      · simp [read_tcp_loop, he] at h
        simp [h]

/-- Every effect `read_tcp` emits is either its banner print or a recv
attempt. -/
theorem read_tcp_effects_cases (read_delay : Rat) (outcomes : List RecvOutcome)
    (buffered : List Nat) :
    ∀ eff ∈ (read_tcp read_delay outcomes buffered).1,
      eff = Effect.printed "read data from client" ∨ eff = Effect.recvAttempt := by
  intro eff h
  simp [read_tcp] at h
  rcases h with h | h
  · exact Or.inl h
  · exact Or.inr (read_tcp_loop_effects_recvAttempt outcomes buffered eff h)

/-- When the outcome trace is `k` would-block errors followed by a success,
the recv loop does exactly `k + 1` recv attempts and returns the first
`BUFSIZE` buffered bytes at once, leaving the remaining outcomes
unconsumed. -/
theorem read_tcp_loop_first_ok (k : Nat) (rest : List RecvOutcome)
    (buffered : List Nat) :
    read_tcp_loop (List.replicate k (.fail errno_EAGAIN) ++ .ok :: rest) buffered
      = (List.replicate (k + 1) .recvAttempt,
         .returned (buffered.take BUFSIZE) rest) := by
  induction k with
  | zero => simp [read_tcp_loop]
  | succ n ih =>
    simp [List.replicate_succ, read_tcp_loop, ih]

/-- C1: for every byte sequence `B` with `len B ≤ 1024` that the client has
sent before closing its side, `run_server` completes normally and the
datafile's content afterwards is exactly `B` — byte for byte, including the
empty sequence — whatever the file held before and whatever the options
are. -/
theorem run_server_roundtrip (B : List Nat) (opts : Opts)
    (file0 : Option (List Nat)) (hB : B.length ≤ 1024) :
    (run_server (.conn [.ok] B) opts file0).file = some B ∧
    (run_server (.conn [.ok] B) opts file0).result = .ok := by
  have ht : B.take BUFSIZE = B :=
    List.take_of_length_le (by simpa [BUFSIZE] using hB)
  exact ⟨by simp [run_server, read_tcp, read_tcp_loop, ht], by
    simp [run_server, read_tcp, read_tcp_loop]⟩

/-- Witness for C1 at the concrete payload `[72, 105]`. -/
theorem run_server_roundtrip_witness :
    ([72, 105] : List Nat).length ≤ 1024 ∧
    ((run_server (.conn [.ok] [72, 105]) sampleOpts none).file = some [72, 105] ∧
     (run_server (.conn [.ok] [72, 105]) sampleOpts none).result = .ok) :=
  ⟨by decide, run_server_roundtrip [72, 105] sampleOpts none (by decide)⟩

/-- C2: on each connection the read performs exactly one successful recv —
after `k` would-block retries it attempts `k + 1` recvs in all — and returns
its value immediately: the result is the first `≤ 1024` buffered bytes
(`take BUFSIZE`), and the remaining outcomes `rest` are left unconsumed, so
no second read is ever attempted however many bytes remain buffered. -/
theorem read_tcp_single_bounded_read (read_delay : Rat) (k : Nat)
    (rest : List RecvOutcome) (buffered : List Nat) :
    read_tcp read_delay
        (List.replicate k (.fail errno_EAGAIN) ++ .ok :: rest) buffered
      = (.printed "read data from client" ::
           List.replicate (k + 1) .recvAttempt,
         .returned (buffered.take BUFSIZE) rest) ∧
    (buffered.take BUFSIZE).length ≤ BUFSIZE := by
  constructor
  · simp [read_tcp, read_tcp_loop_first_ok]
  · rw [List.length_take]
    exact min_le_left _ _

/-- C3: a would-block recv error (`EAGAIN`, numerically equal to
`EWOULDBLOCK`) makes the loop retry at once — one more recv attempt, no
sleep in between — while any other socket error is re-raised by the very
next line with no retry, turns `run_server` into a `sockError` outcome and
terminates the main loop fatally. -/
theorem read_tcp_error_policy (e : Nat) (he : e ≠ errno_EAGAIN)
    (rest rest2 : List RecvOutcome) (buffered : List Nat) (opts : Opts)
    (accs : List AcceptOutcome) (file : Option (List Nat)) :
    errno_EWOULDBLOCK = errno_EAGAIN ∧
    read_tcp_loop (.fail errno_EAGAIN :: rest2) buffered
      = (.recvAttempt :: (read_tcp_loop rest2 buffered).1,
         (read_tcp_loop rest2 buffered).2) ∧
    (∀ d : Rat,
      Effect.sleep d ∉
        (read_tcp opts.delay (.fail errno_EAGAIN :: rest2) buffered).1) ∧
    read_tcp_loop (.fail e :: rest) buffered = ([.recvAttempt], .raised e) ∧
    (main_loop opts (.conn (.fail e :: rest) buffered :: accs) file).result
      = .terminated (.sockError e) := by
  refine ⟨rfl, by simp [read_tcp_loop], ?_, by simp [read_tcp_loop, he], ?_⟩
  · intro d hd
    rcases read_tcp_effects_cases opts.delay _ buffered _ hd with h | h <;>
      simp at h
  · simp [main_loop, run_server, read_tcp, read_tcp_loop, he]

/-- Witness for C3 at the concrete errno 104 (`ECONNRESET`). -/
theorem read_tcp_error_policy_witness :
    (104 : Nat) ≠ errno_EAGAIN ∧
    read_tcp_loop [.fail 104] [7] = ([.recvAttempt], .raised 104) ∧
    (main_loop sampleOpts [.conn [.fail 104] [7]] none).result
      = .terminated (.sockError 104) :=
  ⟨by decide,
   (read_tcp_error_policy 104 (by decide) [] [] [7] sampleOpts [] none).2.2.2.1,
   (read_tcp_error_policy 104 (by decide) [] [] [7] sampleOpts [] none).2.2.2.2⟩

/-- C4: the claim (and the script's own option help for `-d`) says a
configured non-zero delay makes the read sleep before each recv; the code
never sleeps: `read_tcp` receives `read_delay` but ignores it, its effect
trace contains no sleep for any delay, and its behaviour is identical to
delay 0 — shown concretely at delay `1/2`. -/
theorem read_tcp_never_sleeps (read_delay : Rat)
    (outcomes : List RecvOutcome) (buffered : List Nat) :
    (∀ d : Rat,
      Effect.sleep d ∉ (read_tcp read_delay outcomes buffered).1) ∧
    read_tcp read_delay outcomes buffered = read_tcp 0 outcomes buffered ∧
    read_tcp (1/2) [.ok] [65]
      = ([.printed "read data from client", .recvAttempt],
         .returned [65] []) := by
  refine ⟨?_, rfl, rfl⟩
  intro d hd
  rcases read_tcp_effects_cases read_delay outcomes buffered _ hd with h | h <;>
    simp at h

/-- C5: the claim (and the script's header comment) says a `-o`, `--stdout`
console-output option is part of the CLI surface and controls echoing; the
parser defines no such flags — `argparse` would reject `-o` as unrecognized
— and the captured bytes are echoed to stdout unconditionally, here
evaluated on a concrete connection. -/
theorem no_stdout_option_unconditional_echo :
    "-o" ∉ parserFlags ∧ "--stdout" ∉ parserFlags ∧
    (run_server (.conn [.ok] [65]) sampleOpts none).effects.count
        (.printedData "Write: " [65]) = 1 := by
  decide

/-- C6: when `serv.accept()` times out with no client, `run_server` ends in
`acceptTimeout`, the datafile is never opened or written — it keeps exactly
its prior content, or stays absent — and the main loop terminates the
process with that unhandled fault on its first iteration. -/
theorem accept_timeout_terminates_untouched (opts : Opts)
    (file : Option (List Nat)) (accs : List AcceptOutcome) :
    (run_server .timeout opts file).file = file ∧
    Effect.fileOpenW ∉ (run_server .timeout opts file).effects ∧
    (∀ d, Effect.fileWrite d ∉ (run_server .timeout opts file).effects) ∧
    main_loop opts (.timeout :: accs) file
      = ⟨file, 0, .terminated .acceptTimeout⟩ := by
  refine ⟨rfl, by simp [run_server], fun d => by simp [run_server], ?_⟩
  simp [main_loop, run_server]

/-- Helper for C7: in default mode every good connection in the trace is
handled and the loop is still running afterwards. -/
theorem main_loop_default_all_handled (df : String) (p t : Int) (d : Rat)
    (pays : List (List Nat)) (file : Option (List Nat)) :
    (main_loop ⟨df, false, p, t, d⟩
        (pays.map fun b => AcceptOutcome.conn [.ok] b) file).handled
      = pays.length ∧
    (main_loop ⟨df, false, p, t, d⟩
        (pays.map fun b => AcceptOutcome.conn [.ok] b) file).result
      = .running := by
  induction pays generalizing file with
  | nil => simp [main_loop]
  | cons hd tl ih =>
    simpa [main_loop, run_server, read_tcp, read_tcp_loop] using ih _

/-- C7: with single-shot set the loop handles exactly one completed
connection and finishes, never touching the rest of the accept trace; with
single-shot unset it handles every connection in the trace — after
connection `N` it goes on to accept connection `N + 1` — and is still
looping at the end of any finite trace. -/
theorem single_shot_vs_default_loop (df : String) (p t : Int) (d : Rat)
    (B : List Nat) (rest : List AcceptOutcome)
    (pays : List (List Nat)) (file : Option (List Nat)) :
    main_loop ⟨df, true, p, t, d⟩ (.conn [.ok] B :: rest) file
      = ⟨some (B.take BUFSIZE), 1, .finished⟩ ∧
    (main_loop ⟨df, false, p, t, d⟩
        (pays.map fun b => AcceptOutcome.conn [.ok] b) file).handled
      = pays.length ∧
    (main_loop ⟨df, false, p, t, d⟩
        (pays.map fun b => AcceptOutcome.conn [.ok] b) file).result
      = .running := by
  refine ⟨?_, main_loop_default_all_handled df p t d pays file⟩
  simp [main_loop, run_server, read_tcp, read_tcp_loop]

/-- Helper for C8: running the default-mode loop over any trace of good
connections ending in payload `B` leaves the datafile holding exactly
`B`'s first `BUFSIZE` bytes. -/
theorem main_loop_last_payload (df : String) (p t : Int) (d : Rat)
    (pays : List (List Nat)) (B : List Nat) (file : Option (List Nat)) :
    (main_loop ⟨df, false, p, t, d⟩
        ((pays ++ [B]).map fun b => AcceptOutcome.conn [.ok] b) file).file
      = some (B.take BUFSIZE) := by
  induction pays generalizing file with
  | nil => simp [main_loop, run_server, read_tcp, read_tcp_loop]
  | cons hd tl ih =>
    simpa [main_loop, run_server, read_tcp, read_tcp_loop] using ih _

/-- C8: the dump opens the datafile truncating (`fileOpenW` is emitted on
every completed connection) so the resulting content is exactly that
connection's payload whatever the file held before — the same for any two
prior contents, never an append — and after every iteration of the default
loop the file equals the last completed connection's payload. -/
theorem dump_overwrites_every_iteration (df : String) (p t : Int) (d : Rat)
    (opts : Opts) (B : List Nat) (pays : List (List Nat))
    (file0 file1 : Option (List Nat)) :
    (run_server (.conn [.ok] B) opts file0).file = some (B.take BUFSIZE) ∧
    (run_server (.conn [.ok] B) opts file0).file
      = (run_server (.conn [.ok] B) opts file1).file ∧
    Effect.fileOpenW ∈ (run_server (.conn [.ok] B) opts file0).effects ∧
    (main_loop ⟨df, false, p, t, d⟩
        ((pays ++ [B]).map fun b => AcceptOutcome.conn [.ok] b) file0).file
      = some (B.take BUFSIZE) := by
  refine ⟨?_, ?_, ?_, main_loop_last_payload df p t d pays B file0⟩
  · simp [run_server, read_tcp, read_tcp_loop]
  · simp [run_server, read_tcp, read_tcp_loop]
  · simp [run_server, read_tcp, read_tcp_loop]

/-- C9: on every completed connection — whatever the options object holds —
the console line `"Write: " + data` with the captured bytes is printed
exactly once, and the parser defines no flag (`-o`, `--stdout` or other)
that could enable or disable this echo. -/
theorem unconditional_write_echo (opts : Opts) (B : List Nat)
    (file : Option (List Nat)) (k : Nat) (rest : List RecvOutcome) :
    (run_server
        (.conn (List.replicate k (.fail errno_EAGAIN) ++ .ok :: rest) B)
        opts file).effects.count
        (.printedData "Write: " (B.take BUFSIZE)) = 1 ∧
    "-o" ∉ parserFlags ∧ "--stdout" ∉ parserFlags := by
  refine ⟨?_, by decide, by decide⟩
  simp [run_server, read_tcp, read_tcp_loop_first_ok, List.count_cons,
    List.count_append, List.count_replicate]

/-- C10: whenever the read raises a fatal (non-would-block) socket error,
`run_server` propagates it before `open` is reached: the datafile is neither
opened nor written on that connection and keeps exactly its prior content
(or stays absent). -/
theorem fatal_read_error_preserves_file (e : Nat)
    (outcomes : List RecvOutcome) (buffered : List Nat) (opts : Opts)
    (file : Option (List Nat))
    (h : (read_tcp opts.delay outcomes buffered).2 = .raised e) :
    (run_server (.conn outcomes buffered) opts file).file = file ∧
    Effect.fileOpenW ∉ (run_server (.conn outcomes buffered) opts file).effects ∧
    (∀ d, Effect.fileWrite d ∉
      (run_server (.conn outcomes buffered) opts file).effects) ∧
    (run_server (.conn outcomes buffered) opts file).result = .sockError e := by
  have hrw : run_server (.conn outcomes buffered) opts file
      = ⟨.printed "client connected" ::
           (read_tcp opts.delay outcomes buffered).1, file, .sockError e⟩ := by
    simp only [run_server, h]
  rw [hrw]
  refine ⟨rfl, ?_, ?_, rfl⟩
  · intro hmem
    simp at hmem
    rcases read_tcp_effects_cases opts.delay outcomes buffered _ hmem with
      hc | hc <;> simp at hc
  · intro d hmem
    simp at hmem
    rcases read_tcp_effects_cases opts.delay outcomes buffered _ hmem with
      hc | hc <;> simp at hc

/-- Witness for C10 at errno 104 with a non-empty pre-existing file. -/
theorem fatal_read_error_preserves_file_witness :
    (read_tcp sampleOpts.delay [.fail 104] [1, 2]).2 = .raised 104 ∧
    (run_server (.conn [.fail 104] [1, 2]) sampleOpts (some [9])).file
      = some [9] ∧
    (run_server (.conn [.fail 104] [1, 2]) sampleOpts (some [9])).result
      = .sockError 104 :=
  ⟨by decide,
   (fatal_read_error_preserves_file 104 [.fail 104] [1, 2] sampleOpts
     (some [9]) (by decide)).1,
   (fatal_read_error_preserves_file 104 [.fail 104] [1, 2] sampleOpts
     (some [9]) (by decide)).2.2.2⟩

end TcpServerDump
